import Mathlib

/-!
Verification of the survey-dashboard aggregation logic (src/app.py).

The dashboard loads survey rows from a CSV payload, normalizes a numeric
`value_num` column, and renders per-tab summaries: per-participant means and
rating distributions for `rating` rows, `value_counts` summaries for `ab`
comparison rows and `general` question rows, and raw tables for `feedback`
rows.  The definitions below embed those operations over an explicit record
list; pandas frames become lists of records, `pd.to_numeric(errors="coerce")`
becomes an `Option Rat`-valued parser, `Series.value_counts()` becomes a
count-descending listing of first-seen distinct values, and
`groupby("session_id").mean()` becomes a key-sorted list of per-key means.
-/

namespace SurveyDashboard

/-- First-seen deduplication (pandas `unique` / hash-table insertion order),
accumulating the values already seen. -/
def dedupFirstAux {α : Type} [DecidableEq α] (seen : List α) : List α → List α
  | [] => []
  | x :: xs => if x ∈ seen then dedupFirstAux seen xs else x :: dedupFirstAux (x :: seen) xs

/-- Distinct values of a list in order of first appearance. -/
def dedupFirst {α : Type} [DecidableEq α] (l : List α) : List α := dedupFirstAux [] l

/-- Code-point comparison of char lists, the order pandas uses to sort string
group keys. -/
def charsLe : List Char → List Char → Bool
  | [], _ => true
  | _ :: _, [] => false
  | x :: xs, y :: ys => if x = y then charsLe xs ys else decide (x.toNat < y.toNat)

/-- Lexicographic order on strings via their character lists. -/
def strLe (a b : String) : Prop := charsLe a.data b.data = true

instance : DecidableRel strLe := fun a b =>
  inferInstanceAs (Decidable (charsLe a.data b.data = true))

/-- Value of a digit list read in base 10. -/
def natOfDigits (cs : List Char) : Nat := cs.foldl (fun a c => 10 * a + (c.toNat - 48)) 0

/-- Whether every character is a decimal digit. -/
def allDigits (cs : List Char) : Bool := cs.all (fun c => c.isDigit)

/-- `pd.to_numeric(..., errors="coerce")` on one cell: an optional sign
followed by digits with at most one decimal point parses to a rational;
anything else coerces to absent (`None`/NaN), never an error
(src/app.py line 43). -/
def parseNumeric (s : String) : Option Rat :=
  let signedBody : Bool × List Char :=
    match s.data with
    | '-' :: rest => (true, rest)
    | '+' :: rest => (false, rest)
    | cs => (false, cs)
  let signed : Rat → Rat := fun q => if signedBody.1 then -q else q
  match signedBody.2.splitOn '.' with
  | [ip] =>
      if ip ≠ [] && allDigits ip then some (signed ((natOfDigits ip : Int) : Rat)) else none
  | [ip, fp] =>
      if (ip ≠ [] || fp ≠ []) && allDigits ip && allDigits fp then
        some (signed ((natOfDigits ip : Rat) + (natOfDigits fp : Rat) / (10 : Rat) ^ fp.length))
      else none
  | _ => none

/-- One raw CSV row after column-name normalization (src/app.py line 35).
Cells that may be empty are optional; `session_id` and `type` are the
grouping keys the dashboard relies on. -/
structure RawRow where
  timestamp : Option String
  session_id : String
  type : String
  image_name : Option String
  metric : Option String
  value : Option String
deriving DecidableEq

/-- The fetched CSV payload: its rows, and whether a `value` column is
present at all (src/app.py lines 42-45 branch on this). -/
structure RawTable where
  hasValueColumn : Bool
  rows : List RawRow

/-- A normalized Response Record as produced by `load_data`. -/
structure Record where
  timestamp : Option String
  session_id : String
  type : String
  image_name : Option String
  metric : Option String
  value : Option String
  value_num : Option Rat
deriving DecidableEq

/-- Loader failure: source unreachable or payload unparseable.  The code has
no handler around `pd.read_csv`, so this propagates to the caller. -/
inductive LoadError where
  | dataUnavailable
deriving DecidableEq

/-- Build one Record from a raw row: `value_num` is the numeric coercion of
`value` when the column exists, otherwise `None` (src/app.py lines 42-45). -/
def mkRecord (hasVal : Bool) (r : RawRow) : Record :=
  { timestamp := r.timestamp
    session_id := r.session_id
    type := r.type
    image_name := r.image_name
    metric := r.metric
    value := if hasVal then r.value else none
    value_num := if hasVal then r.value.bind parseNumeric else none }

/-- The records produced from a successfully fetched table. -/
def loadedRecords (t : RawTable) : List Record :=
  t.rows.map (mkRecord t.hasValueColumn)

/-- `load_data` (src/app.py lines 30-47) with the network fetch made
explicit: a failed fetch propagates unchanged (there is no try/except, no
retry and no fallback), a successful fetch is normalized row by row. -/
def load_data (fetch : Except LoadError RawTable) : Except LoadError (List Record) :=
  match fetch with
  | .error e => .error e
  | .ok t => .ok (loadedRecords t)

/-- The `st.cache_data` snapshot: the memoized record list and the time it
was fetched. -/
structure CacheState where
  snapshot : Option (List Record)
  fetchedAt : Nat

/-- A cache miss or expiry: run the loader; on success memoize the fresh
snapshot, on failure propagate the error and leave the cache as it was
(`st.cache_data` does not cache exceptions and returns no stale value). -/
def refreshLoad (c : CacheState) (now : Nat) (fetch : Except LoadError RawTable) :
    Except LoadError (List Record) × CacheState :=
  match load_data fetch with
  | .ok recs => (.ok recs, ⟨some recs, now⟩)
  | .error e => (.error e, c)

/-- `@st.cache_data(ttl=60)` around `load_data`: within the ttl window the
memoized snapshot is returned without fetching; after expiry the loader runs
again. -/
def cachedLoad (c : CacheState) (now ttl : Nat) (fetch : Except LoadError RawTable) :
    Except LoadError (List Record) × CacheState :=
  match c.snapshot with
  | some s => if now - c.fetchedAt < ttl then (.ok s, c) else refreshLoad c now fetch
  | none => refreshLoad c now fetch

/-- `df[df["type"] == t]`: exact match on the `type` column. -/
def filterByType (records : List Record) (t : String) : List Record :=
  records.filter (fun r => r.type == t)

/-- `ratings_df = df[df["type"] == "rating"]` (src/app.py line 83). -/
def ratings_df (df : List Record) : List Record := filterByType df "rating"

/-- `ab_df = df[df["type"] == "ab"]` (src/app.py line 203). -/
def ab_df_of (df : List Record) : List Record := filterByType df "ab"

/-- The metric/image restriction of the ratings subset
(src/app.py lines 110-114). -/
def img_metric_df (rdf : List Record) (metric img : String) : List Record :=
  rdf.filter (fun r => r.metric == some metric && r.image_name == some img)

/-- `img_metric_df[["session_id", "value_num"]].dropna()`: the
(session, rating) pairs with a defined numeric value (src/app.py
lines 127-129). -/
def userRatings (df : List Record) : List (String × Rat) :=
  df.filterMap (fun r => r.value_num.map (fun v => (r.session_id, v)))

/-- The mean of the ratings a given session contributed. -/
def meanOf (ps : List (String × Rat)) (s : String) : Rat :=
  let vs := (ps.filter (fun p => p.1 == s)).map Prod.snd
  vs.sum / (vs.length : Rat)

/-- `groupby("session_id", as_index=False).mean()` (src/app.py
lines 127-132): one row per distinct session among the defined ratings,
keys sorted as pandas sorts group keys, value the mean rating. -/
def per_user_df (df : List Record) : List (String × Rat) :=
  let ps := userRatings df
  (List.insertionSort strLe (dedupFirst (ps.map Prod.fst))).map (fun s => (s, meanOf ps s))

/-- The defined numeric values of a subset,
`img_metric_df[["value_num"]].dropna()` (src/app.py lines 156-158). -/
def dist_vals (df : List Record) : List Rat :=
  df.filterMap (fun r => r.value_num)

/-- The rating distribution (src/app.py lines 156-163):
`value_counts()` over the defined values followed by
`sort_values("rating")` — one (rating, count) row per distinct observed
value, in ascending rating order. -/
def dist_df (df : List Record) : List (Rat × Nat) :=
  let vs := dist_vals df
  (List.insertionSort (fun a b : Rat => a ≤ b) (dedupFirst vs)).map (fun x => (x, vs.count x))

/-- One (value, count) pair per first-seen distinct value. -/
def countPairs (vs : List String) : List (String × Nat) :=
  (dedupFirst vs).map (fun x => (x, vs.count x))

/-- The order `Series.value_counts()` sorts by: descending count. -/
def descCount (p q : String × Nat) : Prop := q.2 ≤ p.2

instance : DecidableRel descCount := fun p q => inferInstanceAs (Decidable (q.2 ≤ p.2))

instance : IsTotal (String × Nat) descCount := ⟨fun a b => Nat.le_total b.2 a.2⟩

instance : IsTrans (String × Nat) descCount := ⟨fun _ _ _ h h2 => le_trans h2 h⟩

/-- `Series.value_counts()`: count each distinct value, listed in
descending-count order (ties keep first-seen order). -/
def value_counts (vs : List String) : List (String × Nat) :=
  List.insertionSort descCount (countPairs vs)

/-- The comparison rows for the selected key, with the `choice` column the
code adds as a copy of `value` (src/app.py lines 233-234). -/
def this_ab (ab_df : List Record) (sel : String) : List (Record × Option String) :=
  (ab_df.filter (fun r => r.image_name == some sel)).map (fun r => (r, r.value))

/-- The defined choices of the selected comparison. -/
def choicesOf (ab_df : List Record) (sel : String) : List String :=
  (this_ab ab_df sel).filterMap (fun p => p.2)

/-- `summary = this_ab["choice"].value_counts().reset_index()`
(src/app.py lines 236-237). -/
def summary (ab_df : List Record) (sel : String) : List (String × Nat) :=
  value_counts (choicesOf ab_df sel)

/-- A general-question summary, e.g.
`motiv_df["value"].value_counts()` for one question key
(src/app.py lines 275-278). -/
def gen_summary (gen_df : List Record) (q : String) : List (String × Nat) :=
  value_counts ((gen_df.filter (fun r => r.image_name == some q)).filterMap (fun r => r.value))

/-- The metric code → display label table (src/app.py lines 14-18). -/
def METRIC_LABELS : List (String × String) :=
  [("act", "Liked / Likely to Act"), ("mot", "Motivating"), ("trust", "Trustworthy")]

/-- The comparison key → display label table (src/app.py lines 196-201). -/
def COMPARISON_LABELS : List (String × String) :=
  [("ab1", "img1 vs img4"), ("ab2", "img11 vs img14"),
   ("ab3", "img16 vs img7"), ("ab4", "img21 vs img9")]

/-- `raw_metrics = ratings_df["metric"].dropna().unique()`
(src/app.py line 90). -/
def raw_metrics (rdf : List Record) : List String :=
  dedupFirst (rdf.filterMap (fun r => r.metric))

/-- `[METRIC_LABELS[m] for m in raw_metrics if m in METRIC_LABELS]`
(src/app.py line 91): metrics without a label entry are dropped. -/
def metric_options (rdf : List Record) : List String :=
  (raw_metrics rdf).filterMap (fun m => METRIC_LABELS.lookup m)

/-- `comp_options = ab_df["image_name"].dropna().unique()`
(src/app.py lines 209-214). -/
def comp_options (ab_df : List Record) : List String :=
  dedupFirst (ab_df.filterMap (fun r => r.image_name))

/-- `[COMPARISON_LABELS.get(x, x) for x in comp_options]`
(src/app.py lines 217-219): display falls back to the raw key. -/
def pretty_options (ab_df : List Record) : List String :=
  (comp_options ab_df).map (fun x => (COMPARISON_LABELS.lookup x).getD x)

/-- `[k for k, v in COMPARISON_LABELS.items() if v == selected_pretty][0]`
(src/app.py lines 229-231); `none` models the `IndexError` the `[0]` raises
on an empty candidate list. -/
def selected_comp (selected_pretty : String) : Option String :=
  ((COMPARISON_LABELS.filter (fun kv => kv.2 == selected_pretty)).map Prod.fst).head?

/-- `image_options = sorted(ratings_df["image_name"].dropna().unique())`
(src/app.py lines 101-103). -/
def image_options (rdf : List Record) : List String :=
  List.insertionSort strLe (dedupFirst (rdf.filterMap (fun r => r.image_name)))

/-- What one dashboard tab renders: the explicit empty-data placeholder, or
a report payload. -/
inductive TabView (α : Type) where
  | noData (msg : String)
  | report (payload : α)
deriving DecidableEq

/-- Tab 1 (src/app.py lines 80-97): warn when the rating subset is empty,
otherwise report the metric and image selectors. -/
def ratingsTab (df : List Record) : TabView (List String × List String) :=
  let rdf := ratings_df df
  if rdf.isEmpty then .noData "No rating data found yet."
  else .report (metric_options rdf, image_options rdf)

/-- Tab 2 (src/app.py lines 203-226): warn when the comparison subset is
empty, otherwise report the selector options. -/
def compTab (df : List Record) : TabView (List String) :=
  let ab_df := ab_df_of df
  if ab_df.isEmpty then .noData "No comparison data yet."
  else .report (pretty_options ab_df)

/-- Tab 3 (src/app.py lines 266-269): warn when the general subset is
empty. -/
def generalTab (df : List Record) : TabView (List Record) :=
  let gen_df := filterByType df "general"
  if gen_df.isEmpty then .noData "No general-question data yet."
  else .report gen_df

/-- Tab 4 (src/app.py lines 336-344): note when no feedback exists,
otherwise report the feedback table columns. -/
def feedbackTab (df : List Record) : TabView (List (Option String × String × Option String)) :=
  let fb_df := filterByType df "feedback"
  if fb_df.isEmpty then .noData "No feedback submitted yet."
  else .report (fb_df.map (fun r => (r.timestamp, r.session_id, r.value)))

/-- One invocation of an aggregation path of the dashboard. -/
inductive AggOp where
  | filterType (t : String)
  | ratingReport (metric img : String)
  | compReport (sel : String)

/-- The output of one aggregation. -/
inductive AggOut where
  | subset (rs : List Record)
  | ratingCharts (perUser : List (String × Rat)) (dist : List (Rat × Nat))
  | choiceChart (rows : List (String × Nat))

/-- Run one aggregation against the loaded record set, returned together
with the record set as observed afterwards: every path only filters copies
(`.copy()` throughout src/app.py), so `df` passes through. -/
def runAgg (df : List Record) (op : AggOp) : AggOut × List Record :=
  match op with
  | .filterType t => (.subset (filterByType df t), df)
  | .ratingReport m img =>
      let sub := img_metric_df (ratings_df df) m img
      (.ratingCharts (per_user_df sub) (dist_df sub), df)
  | .compReport sel => (.choiceChart (summary (ab_df_of df) sel), df)

/-- Run a sequence of aggregations, threading the observed record set. -/
def runAggs (df : List Record) : List AggOp → List AggOut × List Record
  | [] => ([], df)
  | op :: ops =>
      ((runAgg df op).1 :: (runAggs (runAgg df op).2 ops).1, (runAggs (runAgg df op).2 ops).2)

/-- The spec's end-to-end scenario rows: three `act` ratings of `img1`. -/
def exampleRows : List RawRow :=
  [⟨none, "s1", "rating", some "img1", some "act", some "4"⟩,
   ⟨none, "s2", "rating", some "img1", some "act", some "4"⟩,
   ⟨none, "s1", "rating", some "img1", some "act", some "2"⟩]

/-- The records loaded from the end-to-end scenario rows. -/
def exampleDf : List Record := (⟨true, exampleRows⟩ : RawTable).rows.map (mkRecord true)

/-- A dataset with a single rating of value 4. -/
def oneRatingDf : List Record :=
  [mkRecord true ⟨none, "s1", "rating", some "img1", some "act", some "4"⟩]

/-- A dataset whose only rating carries the unmapped metric code `foo`. -/
def fooMetricDf : List Record :=
  [mkRecord true ⟨none, "s1", "rating", some "img1", some "foo", some "4"⟩]

/-- A dataset with a single comparison response choosing `B` on `ab1`. -/
def abOnlyB : List Record :=
  [mkRecord true ⟨none, "s1", "ab", some "ab1", none, some "B"⟩]

/-- The round-trip table of §8.5: a `value` column with cells
"3", "bad", "", "5". -/
def csvTable : RawTable :=
  ⟨true, (["3", "bad", "", "5"].map
    (fun v => ⟨none, "s1", "rating", some "img1", some "act", some v⟩))⟩

/-- A fetched table with no `value` column at all. -/
def noValueTable : RawTable :=
  ⟨false, [⟨none, "s1", "rating", some "img1", some "act", some "4"⟩]⟩

/-- Three general-question responses to `motivatesMost`: A, then B twice. -/
def genMotivDf : List Record :=
  [mkRecord true ⟨none, "s1", "general", some "motivatesMost", none, some "A"⟩,
   mkRecord true ⟨none, "s2", "general", some "motivatesMost", none, some "B"⟩,
   mkRecord true ⟨none, "s3", "general", some "motivatesMost", none, some "B"⟩]

theorem mem_dedupFirstAux {α : Type} [DecidableEq α] (seen : List α) (l : List α) (x : α) :
    x ∈ dedupFirstAux seen l ↔ x ∈ l ∧ x ∉ seen := by
  induction l generalizing seen with
  | nil => simp [dedupFirstAux]
  | cons y ys ih =>
    by_cases hy : y ∈ seen
    · simp only [dedupFirstAux, if_pos hy, ih, List.mem_cons]
      constructor
      · rintro ⟨hm, hn⟩; exact ⟨Or.inr hm, hn⟩
      · rintro ⟨rfl | hm, hn⟩
        · exact absurd hy hn
        · exact ⟨hm, hn⟩
    · simp only [dedupFirstAux, if_neg hy, List.mem_cons, ih]
      constructor
      · rintro (rfl | ⟨hm, hn⟩)
        · exact ⟨Or.inl rfl, hy⟩
        · refine ⟨Or.inr hm, fun hc => hn (Or.inr hc)⟩
      · rintro ⟨rfl | hm, hn⟩
        · exact Or.inl rfl
        · by_cases hx : x = y
          · exact Or.inl hx
          · exact Or.inr ⟨hm, fun hc => hc.elim hx hn⟩

theorem nodup_dedupFirstAux {α : Type} [DecidableEq α] (seen : List α) (l : List α) :
    (dedupFirstAux seen l).Nodup := by
  induction l generalizing seen with
  | nil => simp [dedupFirstAux]
  | cons y ys ih =>
    by_cases hy : y ∈ seen
    · simpa [dedupFirstAux, if_pos hy] using ih seen
    · simp only [dedupFirstAux, if_neg hy, List.nodup_cons]
      refine ⟨fun hc => ?_, ih (y :: seen)⟩
      exact ((mem_dedupFirstAux _ _ _).mp hc).2 (List.mem_cons_self _ _)

theorem mem_dedupFirst {α : Type} [DecidableEq α] (l : List α) (x : α) :
    x ∈ dedupFirst l ↔ x ∈ l := by
  simpa [dedupFirst] using mem_dedupFirstAux [] l x

theorem nodup_dedupFirst {α : Type} [DecidableEq α] (l : List α) :
    (dedupFirst l).Nodup := nodup_dedupFirstAux [] l

theorem dedupFirst_perm_dedup {α : Type} [DecidableEq α] (l : List α) :
    List.Perm (dedupFirst l) l.dedup := by
  refine (List.perm_ext_iff_of_nodup (nodup_dedupFirst l) l.nodup_dedup).mpr fun a => ?_
  rw [mem_dedupFirst, List.mem_dedup]

theorem sum_counts_dedupFirst {α : Type} [DecidableEq α] (l : List α) :
    ((dedupFirst l).map fun x => l.count x).sum = l.length := by
  have hperm := (dedupFirst_perm_dedup l).map fun x => l.count x
  rw [hperm.sum_eq]
  exact List.sum_map_count_dedup_eq_length l

theorem lookup_mem {α β : Type} [DecidableEq α] (l : List (α × β)) (k : α) (v : β)
    (h : l.lookup k = some v) : (k, v) ∈ l := by
  induction l with
  | nil => simp [List.lookup] at h
  | cons kv rest ih =>
    by_cases hk : k = kv.1
    · subst hk
      simp only [List.lookup, beq_self_eq_true] at h
      obtain rfl : kv.2 = v := by injection h
      exact List.mem_cons_self _ _
    · have hbe : (k == kv.1) = false := beq_eq_false_iff_ne.mpr hk
      simp only [List.lookup, hbe] at h
      exact List.mem_cons_of_mem _ (ih h)

theorem countPairs_map_fst (vs : List String) :
    (countPairs vs).map Prod.fst = dedupFirst vs := by
  simp [countPairs, List.map_map, Function.comp_def]

theorem countPairs_mem_val (vs : List String) (p : String × Nat) (hp : p ∈ countPairs vs) :
    p.2 = vs.count p.1 ∧ p.1 ∈ vs := by
  obtain ⟨x, hx, rfl⟩ := List.mem_map.mp hp
  exact ⟨rfl, (mem_dedupFirst vs x).mp hx⟩

theorem value_counts_perm (vs : List String) :
    List.Perm (value_counts vs) (countPairs vs) :=
  List.perm_insertionSort _ _

theorem value_counts_mem_val (vs : List String) (p : String × Nat) (hp : p ∈ value_counts vs) :
    p.2 = vs.count p.1 ∧ p.1 ∈ vs :=
  countPairs_mem_val vs p ((value_counts_perm vs).mem_iff.mp hp)

theorem value_counts_keys_nodup (vs : List String) :
    ((value_counts vs).map Prod.fst).Nodup := by
  have h := ((value_counts_perm vs).map Prod.fst).nodup_iff
  rw [h, countPairs_map_fst]
  exact nodup_dedupFirst vs

theorem value_counts_mem_keys (vs : List String) (c : String) :
    c ∈ (value_counts vs).map Prod.fst ↔ c ∈ vs := by
  rw [((value_counts_perm vs).map Prod.fst).mem_iff, countPairs_map_fst, mem_dedupFirst]

theorem value_counts_sorted (vs : List String) :
    ((value_counts vs).map Prod.snd).Sorted (fun a b => b ≤ a) := by
  have h : (value_counts vs).Sorted descCount := List.sorted_insertionSort descCount _
  exact List.Pairwise.map Prod.snd (fun a b hab => hab) h

theorem value_counts_sum (vs : List String) :
    ((value_counts vs).map Prod.snd).sum = vs.length := by
  have hperm := (value_counts_perm vs).map Prod.snd
  rw [hperm.sum_eq]
  have : (countPairs vs).map Prod.snd = (dedupFirst vs).map fun x => vs.count x := by
    simp [countPairs, List.map_map, Function.comp_def]
  rw [this]
  exact sum_counts_dedupFirst vs

theorem runAgg_snd (df : List Record) (op : AggOp) : (runAgg df op).2 = df := by
  cases op <;> rfl

/-- Claim C1, counterexample: on a non-empty rating subset with one defined
value the distribution has a single entry, not the five fixed buckets the
claim promises — `value_counts()` emits no zero-count buckets. -/
theorem C1_fixed_buckets_counterexample :
    oneRatingDf ≠ [] ∧ (dist_vals oneRatingDf).length = 1
    ∧ ¬ (dist_df oneRatingDf).length = 5 := by decide

/-- Claim C1, amended: for every subset, the rating distribution has exactly
one entry per distinct defined `value_num` — a rating appears among the
entry keys exactly when some record carries it, the keys are ascending and
duplicate-free, zero-observation buckets are omitted — each entry's count
is the number of occurrences of its rating (hence positive), and the counts
sum to the number of records with a defined numeric value. -/
theorem C1_rating_distribution_shape (df : List Record) :
    ((dist_df df).map Prod.fst).Sorted (fun a b : Rat => a ≤ b)
    ∧ ((dist_df df).map Prod.fst).Nodup
    ∧ (∀ x, x ∈ (dist_df df).map Prod.fst ↔ x ∈ dist_vals df)
    ∧ (∀ p ∈ dist_df df, p.2 = (dist_vals df).count p.1 ∧ 0 < p.2)
    ∧ ((dist_df df).map Prod.snd).sum = (dist_vals df).length := by
  have hkeys : (dist_df df).map Prod.fst
      = List.insertionSort (fun a b : Rat => a ≤ b) (dedupFirst (dist_vals df)) := by
    simp [dist_df, List.map_map, Function.comp_def]
  have hperm := List.perm_insertionSort (fun a b : Rat => a ≤ b) (dedupFirst (dist_vals df))
  refine ⟨?_, ?_, ?_, ?_, ?_⟩
  · rw [hkeys]
    exact List.sorted_insertionSort _ _
  · rw [hkeys, hperm.nodup_iff]
    exact nodup_dedupFirst _
  · intro x
    rw [hkeys, hperm.mem_iff, mem_dedupFirst]
  · intro p hp
    obtain ⟨x, hx, rfl⟩ := List.mem_map.mp hp
    have hxv : x ∈ dist_vals df := (mem_dedupFirst _ x).mp (hperm.mem_iff.mp hx)
    exact ⟨rfl, List.count_pos_iff.mpr hxv⟩
  · have hsnd : (dist_df df).map Prod.snd
        = (List.insertionSort (fun a b : Rat => a ≤ b) (dedupFirst (dist_vals df))).map
            (fun x => (dist_vals df).count x) := by
      simp [dist_df, List.map_map, Function.comp_def]
    rw [hsnd, (hperm.map fun x => (dist_vals df).count x).sum_eq]
    exact sum_counts_dedupFirst _

/-- Claim C2, counterexample: with the single comparison response `B` on
`ab1`, the summary has one entry `("B", 1)` — neither length 3 nor the fixed
category order `[A, B, Neither]`; absent choices are not emitted with 0. -/
theorem C2_fixed_order_counterexample :
    (summary abOnlyB "ab1").map Prod.fst = ["B"]
    ∧ ¬ (summary abOnlyB "ab1").length = 3
    ∧ ¬ (summary abOnlyB "ab1").map Prod.fst = ["A", "B", "Neither"] := by decide

/-- Claim C2, amended: the comparison summary is built with no fixed order:
it has exactly one entry per distinct choice observed in the data (choices
absent from the data are not emitted), each with its occurrence count, and
entries are ordered by non-increasing count. -/
theorem C2_summary_observed_only (ab_df : List Record) (sel : String) :
    ((summary ab_df sel).map Prod.fst).Nodup
    ∧ (∀ c, c ∈ (summary ab_df sel).map Prod.fst ↔ c ∈ choicesOf ab_df sel)
    ∧ (∀ p ∈ summary ab_df sel, p.2 = (choicesOf ab_df sel).count p.1)
    ∧ ((summary ab_df sel).map Prod.snd).Sorted (fun a b => b ≤ a) :=
  ⟨value_counts_keys_nodup _, fun c => value_counts_mem_keys _ c,
   fun p hp => (value_counts_mem_val _ p hp).1, value_counts_sorted _⟩

/-- Claim C6, counterexample: for general-question responses A, B, B the
summary is `[("B", 2), ("A", 1)]` — ordered by descending count, not by the
first-seen order `["A", "B"]` of the distinct values. -/
theorem C6_insertion_order_counterexample :
    gen_summary genMotivDf "motivatesMost" = [("B", 2), ("A", 1)]
    ∧ dedupFirst ["A", "B", "B"] = ["A", "B"]
    ∧ ¬ (gen_summary genMotivDf "motivatesMost").map Prod.fst = ["A", "B"] := by decide

/-- Claim C6, amended: `value_counts` without a fixed order sorts its entries
by non-increasing count (the pandas `value_counts` order), not by first
appearance; it still has one entry per distinct observed value, with its
occurrence count, and the counts sum to the input length. -/
theorem C6_value_counts_order (vs : List String) :
    ((value_counts vs).map Prod.snd).Sorted (fun a b => b ≤ a)
    ∧ (∀ c, c ∈ (value_counts vs).map Prod.fst ↔ c ∈ vs)
    ∧ (∀ p ∈ value_counts vs, p.2 = vs.count p.1)
    ∧ ((value_counts vs).map Prod.snd).sum = vs.length :=
  ⟨value_counts_sorted vs, fun c => value_counts_mem_keys vs c,
   fun p hp => (value_counts_mem_val vs p hp).1, value_counts_sum vs⟩

/-- Claim C3, counterexample: the metric code `foo` has no display-label
entry, and the Report Builder does not fall back to the raw code — the
metric is dropped from the options entirely, so no descriptor labelled
`foo` is ever produced. -/
theorem C3_unmapped_metric_counterexample :
    raw_metrics fooMetricDf = ["foo"]
    ∧ metric_options fooMetricDf = []
    ∧ ¬ "foo" ∈ metric_options fooMetricDf := by decide

/-- Claim C3, amended: unmapped comparison keys do fall back to the raw key
for display, but unmapped metric codes are silently dropped from the metric
options (only mapped labels ever appear), and selecting an unmapped
comparison key makes the pretty-to-raw reverse lookup come up empty — the
`[0]` indexing in the code then raises, a hard failure. -/
theorem C3_lookup_fallback (ab_df rdf : List Record) (s : String)
    (hs : ∀ kv ∈ COMPARISON_LABELS, kv.2 ≠ s) :
    (∀ x ∈ comp_options ab_df, COMPARISON_LABELS.lookup x = none → x ∈ pretty_options ab_df)
    ∧ (∀ l ∈ metric_options rdf, ∃ k, (k, l) ∈ METRIC_LABELS)
    ∧ selected_comp s = none := by
  refine ⟨?_, ?_, ?_⟩
  · intro x hx hlook
    have hmem : (COMPARISON_LABELS.lookup x).getD x ∈ pretty_options ab_df :=
      List.mem_map_of_mem _ hx
    rwa [hlook, Option.getD_none] at hmem
  · intro l hl
    obtain ⟨m, _, hml⟩ := List.mem_filterMap.mp hl
    exact ⟨m, lookup_mem _ _ _ hml⟩
  · have hfil : COMPARISON_LABELS.filter (fun kv => kv.2 == s) = [] := by
      apply List.filter_eq_nil_iff.mpr
      intro kv hkv
      simpa using hs kv hkv
    simp [selected_comp, hfil]

/-- Witness for C3: `ab9` is no display label of the comparison table, and
the reverse lookup for it yields nothing. -/
theorem C3_lookup_fallback_witness :
    (∀ kv ∈ COMPARISON_LABELS, kv.2 ≠ "ab9") ∧ selected_comp "ab9" = none :=
  ⟨by decide, (C3_lookup_fallback [] [] "ab9" (by decide)).2.2⟩

/-- Claim C4: `per_user_df` keeps exactly one row per distinct session among
the records with a defined `value_num` — a session whose records all lack a
numeric value never appears — each row carrying the mean of that session's
defined values; on the spec's three-record scenario it yields
`{s1 ↦ 3, s2 ↦ 4}`. -/
theorem C4_per_participant_mean (df : List Record) :
    ((per_user_df df).map Prod.fst).Nodup
    ∧ (∀ s, s ∈ (per_user_df df).map Prod.fst ↔
        ∃ r ∈ df, r.session_id = s ∧ r.value_num.isSome)
    ∧ (∀ p ∈ per_user_df df, p.2 = meanOf (userRatings df) p.1)
    ∧ per_user_df (img_metric_df (ratings_df exampleDf) "act" "img1")
        = [("s1", 3), ("s2", 4)] := by
  have hkeys : (per_user_df df).map Prod.fst
      = List.insertionSort strLe (dedupFirst ((userRatings df).map Prod.fst)) := by
    simp [per_user_df, List.map_map, Function.comp_def]
  have hperm := List.perm_insertionSort strLe (dedupFirst ((userRatings df).map Prod.fst))
  refine ⟨?_, ?_, ?_, ?_⟩
  · rw [hkeys, hperm.nodup_iff]
    exact nodup_dedupFirst _
  · intro s
    rw [hkeys, hperm.mem_iff, mem_dedupFirst]
    simp only [userRatings, List.mem_map, List.mem_filterMap, Option.map_eq_some']
    constructor
    · rintro ⟨⟨s', v⟩, ⟨r, hr, w, hw, heq⟩, rfl⟩
      obtain ⟨h1, -⟩ := Prod.mk.injEq .. |>.mp heq
      exact ⟨r, hr, h1, by rw [hw]; rfl⟩
    · rintro ⟨r, hr, rfl, hsome⟩
      obtain ⟨w, hw⟩ := Option.isSome_iff_exists.mp hsome
      exact ⟨(r.session_id, w), ⟨r, hr, w, hw, rfl⟩, rfl⟩
  · intro p hp
    obtain ⟨s, -, rfl⟩ := List.mem_map.mp hp
    rfl
  · have hps : userRatings (img_metric_df (ratings_df exampleDf) "act" "img1")
        = [("s1", (4 : Rat)), ("s2", (4 : Rat)), ("s1", (2 : Rat))] := by decide
    have hex : per_user_df (img_metric_df (ratings_df exampleDf) "act" "img1")
        = [("s1", meanOf (userRatings (img_metric_df (ratings_df exampleDf) "act" "img1")) "s1"),
           ("s2", meanOf (userRatings (img_metric_df (ratings_df exampleDf) "act" "img1")) "s2")] :=
      rfl
    have hf1 : (([("s1", (4 : Rat)), ("s2", 4), ("s1", 2)].filter
        (fun p => p.1 == "s1")).map Prod.snd) = [4, 2] := by decide
    have hf2 : (([("s1", (4 : Rat)), ("s2", 4), ("s1", 2)].filter
        (fun p => p.1 == "s2")).map Prod.snd) = [4] := by decide
    have h1 : meanOf [("s1", (4 : Rat)), ("s2", 4), ("s1", 2)] "s1" = 3 := by
      unfold meanOf
      rw [hf1]
      norm_num [List.sum]
    have h2 : meanOf [("s1", (4 : Rat)), ("s2", 4), ("s1", 2)] "s2" = 4 := by
      unfold meanOf
      rw [hf2]
      norm_num [List.sum]
    rw [hex, hps, h1, h2]

/-- Claim C5: for any loaded table with a `value` column, `value_num` is
defined exactly when `value` parses as a number (coercion failure degrades
to absent rather than failing the record or the load), and the round-trip
on the column "3", "bad", "", "5" yields `[3, absent, absent, 5]`. -/
theorem C5_numeric_coercion (t : RawTable) (ht : t.hasValueColumn = true) :
    load_data (.ok t) = .ok (loadedRecords t)
    ∧ (∀ rec ∈ loadedRecords t,
        rec.value_num.isSome ↔ ∃ s, rec.value = some s ∧ (parseNumeric s).isSome)
    ∧ (loadedRecords csvTable).map (fun r => r.value_num)
        = [some 3, none, none, some 5] := by
  refine ⟨rfl, ?_, by decide⟩
  intro rec hrec
  obtain ⟨raw, -, rfl⟩ := List.mem_map.mp hrec
  rw [ht]
  simp only [mkRecord, if_pos]
  cases hv : raw.value with
  | none => simp
  | some s => simp

/-- Witness for C5: the concrete round-trip applied through the theorem at
the example table. -/
theorem C5_numeric_coercion_witness :
    (loadedRecords csvTable).map (fun r => r.value_num)
      = [some 3, none, none, some 5] :=
  (C5_numeric_coercion csvTable rfl).2.2

/-- Claim C7: whenever a type's subset is empty, the corresponding tab
renders the explicit no-data placeholder — no aggregation is reached and
nothing fails. -/
theorem C7_empty_type_placeholders (df : List Record) :
    (filterByType df "rating" = [] → ratingsTab df = .noData "No rating data found yet.")
    ∧ (filterByType df "ab" = [] → compTab df = .noData "No comparison data yet.")
    ∧ (filterByType df "general" = [] → generalTab df = .noData "No general-question data yet.")
    ∧ (filterByType df "feedback" = [] → feedbackTab df = .noData "No feedback submitted yet.") := by
  refine ⟨fun h => ?_, fun h => ?_, fun h => ?_, fun h => ?_⟩
  · simp [ratingsTab, ratings_df, h]
  · simp [compTab, ab_df_of, h]
  · simp [generalTab, h]
  · simp [feedbackTab, h]

/-- Witness for C7: on the empty record set every tab is the no-data
placeholder. -/
theorem C7_empty_type_placeholders_witness :
    ratingsTab [] = .noData "No rating data found yet."
    ∧ compTab [] = .noData "No comparison data yet."
    ∧ generalTab [] = .noData "No general-question data yet."
    ∧ feedbackTab [] = .noData "No feedback submitted yet." :=
  ⟨(C7_empty_type_placeholders []).1 rfl, (C7_empty_type_placeholders []).2.1 rfl,
   (C7_empty_type_placeholders []).2.2.1 rfl, (C7_empty_type_placeholders []).2.2.2 rfl⟩

/-- Claim C8: when the cache cannot serve a snapshot within its ttl and the
fetch fails, `cachedLoad` returns exactly the `DataUnavailable` error — no
retry happens and no stale snapshot is substituted — and the cache is left
as it was. -/
theorem C8_load_failure_propagates (c : CacheState) (now ttl : Nat)
    (hexp : ∀ s, c.snapshot = some s → ¬ now - c.fetchedAt < ttl) :
    (cachedLoad c now ttl (.error .dataUnavailable)).1 = .error .dataUnavailable
    ∧ (cachedLoad c now ttl (.error .dataUnavailable)).2 = c := by
  cases hsnap : c.snapshot with
  | none => simp [cachedLoad, hsnap, refreshLoad, load_data]
  | some s =>
      have hlt := hexp s hsnap
      simp [cachedLoad, hsnap, refreshLoad, load_data, hlt]

/-- Witness for C8: an expired cache holding a stale snapshot still yields
the error, with the cache untouched. -/
theorem C8_load_failure_propagates_witness :
    (cachedLoad ⟨some [], 0⟩ 100 60 (.error .dataUnavailable)).1 = .error .dataUnavailable
    ∧ (cachedLoad ⟨some [], 0⟩ 100 60 (.error .dataUnavailable)).2 = ⟨some [], 0⟩ :=
  C8_load_failure_propagates ⟨some [], 0⟩ 100 60 (fun _ _ => by decide)

/-- Claim C9: every aggregation path is read-only over the loaded record
set: after any sequence of aggregator calls the observed record set equals
the input, and every output equals the same call made against the pristine
input. -/
theorem C9_aggregators_pure (df : List Record) (ops : List AggOp) :
    (runAggs df ops).2 = df
    ∧ (runAggs df ops).1 = ops.map (fun op => (runAgg df op).1) := by
  induction ops with
  | nil => exact ⟨rfl, rfl⟩
  | cons op ops ih =>
      simp only [runAggs, runAgg_snd, List.map]
      exact ⟨ih.1, by rw [ih.2]⟩

/-- Claim C10: when the payload has no `value` column, the load still
succeeds with one record per row and every record's `value_num` absent. -/
theorem C10_missing_value_column (t : RawTable) (ht : t.hasValueColumn = false) :
    load_data (.ok t) = .ok (loadedRecords t)
    ∧ (loadedRecords t).length = t.rows.length
    ∧ ∀ rec ∈ loadedRecords t, rec.value_num = none := by
  refine ⟨rfl, List.length_map _ _, ?_⟩
  intro rec hrec
  obtain ⟨raw, -, rfl⟩ := List.mem_map.mp hrec
  rw [ht]
  rfl

/-- Witness for C10: a one-row table without a `value` column loads
successfully. -/
theorem C10_missing_value_column_witness :
    load_data (.ok noValueTable) = .ok (loadedRecords noValueTable)
    ∧ (loadedRecords noValueTable).length = noValueTable.rows.length :=
  ⟨(C10_missing_value_column noValueTable rfl).1,
   (C10_missing_value_column noValueTable rfl).2.1⟩

end SurveyDashboard
